import Mathlib

/-!
Verification of `tools/dispatcher.py` (`DynamicToolDispatcher`).

Strings are modelled as Lean `String` / `List Char`; the regular expressions of
the dispatcher are all of one of three simple shapes, embedded directly:
  * plain literal substring search (`re.search(lit, text)`),
  * a literal with word boundaries on both sides (only used as a whole-word search),
  * a capture search `pre ([A-Za-z\s]+)` or `([A-Za-z\s]+) suf` (leftmost match,
    greedy capture, `re.IGNORECASE`), used by `_extract_location`.
`datetime.now().isoformat()` is modelled as an extra `now : String` argument of
`analyze_task` (the capture time of the analysis).
-/

namespace AutoGenFlows

/-- Python `\s` / `str.strip()` / `str.split()` whitespace, on ASCII text. -/
def pySpace (c : Char) : Bool :=
  c == ' ' || c == '\t' || c == '\n' || c == '\r' || c == '\x0b' || c == '\x0c'

/-- The character class `[A-Za-z\s]` used by the location capture patterns. -/
def clsChar (c : Char) : Bool := c.isAlpha || pySpace c

/-- `str.lower()` on ASCII text (`re.IGNORECASE` is modelled by lowering both sides). -/
def lcl (l : List Char) : List Char := l.map Char.toLower

/-- Literal match at the current position (`pat` is a prefix of `text`). -/
def litAt : List Char → List Char → Bool
  | [], _ => true
  | _ :: _, [] => false
  | p :: ps, c :: cs => p == c && litAt ps cs

/-- `re.search` of a literal pattern: the literal occurs somewhere in `text`. -/
def substrMatch (pat : List Char) : List Char → Bool
  | [] => litAt pat []
  | c :: cs => litAt pat (c :: cs) || substrMatch pat cs

/-- Extraction for `re.search(pre + r'([A-Za-z\s]+)', text, re.IGNORECASE)`:
leftmost position where the literal `pre` matches case-insensitively and is
followed by at least one `[A-Za-z\s]` character; the greedy capture is the
maximal run of class characters after `pre`. -/
def searchPreCap (pre : List Char) : List Char → Option (List Char)
  | [] => none
  | c :: cs =>
    if litAt pre (lcl (c :: cs)) then
      let cap := ((c :: cs).drop pre.length).takeWhile clsChar
      if cap.isEmpty then searchPreCap pre cs else some cap
    else searchPreCap pre cs

/-- Backtracking step for `([A-Za-z\s]+) suf`: largest `j ≤ m` (and `1 ≤ j`) such
that the literal `suf` matches case-insensitively at offset `j`; the capture is
the first `j` characters. -/
def btCap (suf text : List Char) : Nat → Option (List Char)
  | 0 => none
  | j + 1 =>
    if litAt suf (lcl (text.drop (j + 1))) then some (text.take (j + 1))
    else btCap suf text j

/-- Extraction for `re.search(r'([A-Za-z\s]+)' + suf, text, re.IGNORECASE)`:
leftmost start position admitting a non-empty greedy class-run capture followed
by the literal `suf`. -/
def searchCapSuf (suf : List Char) : List Char → Option (List Char)
  | [] => none
  | c :: cs =>
    match btCap suf (c :: cs) (((c :: cs).takeWhile clsChar).length) with
    | some cap => some cap
    | none => searchCapSuf suf cs

/-- `str.strip()` on ASCII text. -/
def pyStrip (l : List Char) : List Char :=
  ((l.dropWhile pySpace).reverse.dropWhile pySpace).reverse

/-- The non-location noise words of `_extract_location` (line 113 of the source). -/
def noiseWords : List (List Char) :=
  ["data".data, "information".data, "analysis".data, "report".data]

/-- One loop iteration of `_extract_location`: a matched capture is stripped and
kept unless it is a noise word; a noise capture or a failed pattern falls
through to the next pattern. -/
def acceptLoc : Option (List Char) → Option (List Char)
  | none => none
  | some cap =>
    let loc := pyStrip cap
    if noiseWords.contains (lcl loc) then none else some loc

/-- The six `location_patterns`, applied to the raw task text, in order. -/
def locCaptures (task : List Char) : List (Option (List Char)) :=
  [searchPreCap "in ".data task, searchPreCap "for ".data task,
   searchPreCap "from ".data task, searchCapSuf " pollution".data task,
   searchCapSuf " environment".data task, searchCapSuf " data".data task]

/-- `_extract_location`: first pattern whose stripped capture is not a noise
word, defaulting to `"global"`. -/
def extractLocation (task : List Char) : List Char :=
  (((locCaptures task).filterMap acceptLoc).head?).getD "global".data

/-- The `time_patterns` of `__init__` (all literal substring patterns). -/
def timePatterns : List (List Char) :=
  ["last year".data, "previous year".data, "2023".data, "2024".data, "2025".data,
   "compared to".data, "vs".data, "versus".data, "difference".data, "change from".data]

/-- `_detect_time_comparison` (applied to the lower-cased task text). -/
def detectTimeComparison (t : List Char) : Bool :=
  timePatterns.any (fun p => substrMatch p t)

/-- The `tool_patterns` dictionary of `__init__`, in insertion order
(every pattern is a literal substring pattern). -/
def toolPatterns : List (String × List (List Char)) :=
  [("environmental_data",
    ["pollution".data, "environment".data, "air quality".data, "water quality".data,
     "pm2.5".data, "pm10".data, "carbon".data, "emissions".data, "climate".data,
     "contamination".data]),
   ("web_search",
    ["news".data, "current".data, "latest".data, "recent".data, "today".data,
     "search".data, "research".data, "study".data, "report".data, "analysis".data,
     "information".data]),
   ("market_data",
    ["stock".data, "market".data, "price".data, "finance".data, "economy".data,
     "business".data, "revenue".data, "profit".data, "sales".data, "trading".data]),
   ("weather_data",
    ["weather".data, "temperature".data, "rain".data, "storm".data, "forecast".data,
     "humidity".data, "wind".data, "precipitation".data]),
   ("data_analysis",
    ["analyze".data, "analysis".data, "compare".data, "comparison".data,
     "evaluate".data, "assess".data, "calculate".data, "measure".data,
     "statistics".data])]

/-- The category names of `tool_patterns` in definition order. -/
def toolCatNames : List String :=
  ["environmental_data", "web_search", "market_data", "weather_data", "data_analysis"]

/-- The entries of `tool_patterns` some pattern of which matches the lower-cased
task text (the tool-selection loop of `analyze_task`). -/
def matchedCats (task : String) : List (String × List (List Char)) :=
  toolPatterns.filter (fun p => p.2.any (fun pat => substrMatch pat (lcl task.data)))

/-- The `selected_tools` list right after the pattern-matching loop. -/
def patternSelectedTools (task : String) : List String :=
  (matchedCats task).map Prod.fst

/-- `_classify_task_type` (Python `word in text` is substring containment). -/
def classifyTaskType (t : List Char) : String :=
  if ["pollution".data, "environment".data, "climate".data].any
      (fun w => substrMatch w t) then "environmental"
  else if ["market".data, "stock".data, "finance".data].any
      (fun w => substrMatch w t) then "financial"
  else if ["weather".data, "temperature".data, "forecast".data].any
      (fun w => substrMatch w t) then "weather"
  else if ["analyze".data, "compare".data, "evaluate".data].any
      (fun w => substrMatch w t) then "analytical"
  else "general"

/-- Python `\w` word characters (ASCII). -/
def isWordChar (c : Char) : Bool := c.isAlphanum || c == '_'

/-- `re.search(r'\b' + w + r'\b', text)` for a word `w` made of word characters:
scan every position, tracking whether the previous character is a word
character. -/
def wbScan (w : List Char) : Bool → List Char → Bool
  | _, [] => false
  | prevWord, c :: cs =>
    (!prevWord && litAt w (c :: cs) &&
      (match (c :: cs).drop w.length with
       | [] => true
       | d :: _ => !isWordChar d)) || wbScan w (isWordChar c) cs

/-- The fixed pollutant vocabulary of `_extract_pollution_metrics`, in
dictionary insertion order. -/
def metricNames : List String := ["pm2.5", "pm10", "no2", "so2", "co", "o3", "aqi"]

/-- The per-metric regex of `_extract_pollution_metrics`, on the (already
lower-cased) task text. `co` is matched as a whole word only. -/
def metricMatch (t : List Char) (name : String) : Bool :=
  if name = "pm2.5" then
    substrMatch "pm2.5".data t || substrMatch "particulate matter 2.5".data t
  else if name = "pm10" then
    substrMatch "pm10".data t || substrMatch "particulate matter 10".data t ||
      substrMatch "dust".data t
  else if name = "no2" then
    substrMatch "no2".data t || substrMatch "nitrogen dioxide".data t
  else if name = "so2" then
    substrMatch "so2".data t || substrMatch "sulfur dioxide".data t
  else if name = "co" then
    wbScan "co".data false t || substrMatch "carbon monoxide".data t
  else if name = "o3" then
    substrMatch "o3".data t || substrMatch "ozone".data t
  else if name = "aqi" then
    substrMatch "aqi".data t || substrMatch "air quality index".data t
  else false

/-- `_extract_pollution_metrics`: matched vocabulary entries in fixed order,
defaulting to `['pm2.5', 'pm10', 'no2']` when none match. -/
def extractPollutionMetrics (t : List Char) : List String :=
  let ms := metricNames.filter (metricMatch t)
  if ms.isEmpty then ["pm2.5", "pm10", "no2"] else ms

/-- Word counting of Python `len(task.split())`: number of maximal runs of
non-whitespace characters. -/
def wcAux : Bool → List Char → Nat
  | _, [] => 0
  | inWord, c :: cs =>
    if pySpace c then wcAux false cs
    else (if inWord then 0 else 1) + wcAux true cs

/-- `len(task.split())`. -/
def wordCount (l : List Char) : Nat := wcAux false l

/-- The `complexity_indicators` of `_assess_complexity`. -/
def complexityIndicators : List (List Char) :=
  ["compare".data, "analyze".data, "evaluate".data, "assessment".data,
   "comprehensive".data, "detailed".data]

/-- `_assess_complexity` on the raw task text (the keyword scan lowers it). -/
def assessComplexity (task : List Char) : String :=
  if 15 < wordCount task ∨
      (complexityIndicators.any fun w => substrMatch w (lcl task)) = true then "high"
  else if 8 < wordCount task then "medium"
  else "low"

/-- Parameter values appearing in the tool-parameter dictionaries. -/
inductive PVal where
  | s (v : String)
  | b (v : Bool)
  | n (v : Nat)
  | ls (v : List String)
deriving Repr, DecidableEq

/-- A tool-parameter dictionary, as an ordered association list. -/
abbrev Params := List (String × PVal)

/-- The `base_params` common to every branch of `_get_tool_parameters`. -/
def baseParams (task location now : String) : Params :=
  [("task_context", PVal.s task), ("location", PVal.s location),
   ("timestamp", PVal.s now)]

/-- `_get_tool_parameters` (the `timestamp` value is the `now` argument). -/
def getToolParameters (toolType task location : String) (hasComparison : Bool)
    (now : String) : Params :=
  if toolType = "environmental_data" then
    baseParams task location now ++
      [("include_comparison", PVal.b hasComparison),
       ("metrics", PVal.ls (extractPollutionMetrics (lcl task.data))),
       ("data_source", PVal.s "real_time_monitoring")]
  else if toolType = "web_search" then
    baseParams task location now ++
      [("query", PVal.s task),
       ("date_filter", PVal.s (if hasComparison then "recent" else "all")),
       ("result_limit", PVal.n 10)]
  else if toolType = "data_analysis" then
    baseParams task location now ++
      [("analysis_type",
        PVal.s (if hasComparison then "comparative" else "descriptive")),
       ("include_visualization", PVal.b true)]
  else if toolType = "weather_data" then
    baseParams task location now ++
      [("include_forecast", PVal.b true), ("historical_data", PVal.b hasComparison)]
  else baseParams task location now

/-- The extracted location of a task, as a string. -/
def taskLocation (task : String) : String := String.mk (extractLocation task.data)

/-- The `parameters` entries produced by the pattern-matching loop. -/
def patternParams (task now : String) : List (String × Params) :=
  (matchedCats task).map fun p =>
    (p.1, getToolParameters p.1 task (taskLocation task)
      (detectTimeComparison (lcl task.data)) now)

/-- The parameters of the forced `web_search` fallback (lines 84-87): only
`query` and `date_filter`. -/
def fallbackWebParams (task : String) : Params :=
  [("query", PVal.s task),
   ("date_filter",
    PVal.s (if detectTimeComparison (lcl task.data) then "recent" else "all"))]

/-- The parameters of the injected `data_analysis` entry (line 92): only
`analysis_type`, fixed to `comparative`. -/
def injectedParams : Params := [("analysis_type", PVal.s "comparative")]

/-- `selected_tools` after the empty-selection fallback. -/
def withFallbackTools (ps : List String) : List String :=
  if ps = [] then ["web_search"] else ps

/-- `selected_tools` after the fallback and the `data_analysis` injection. -/
def finalToolsOf (ps : List String) : List String :=
  if 1 < (withFallbackTools ps).length ∧ "data_analysis" ∉ withFallbackTools ps then
    withFallbackTools ps ++ ["data_analysis"]
  else withFallbackTools ps

/-- `parameters` after the empty-selection fallback. -/
def withFallbackParams (task now : String) : List (String × Params) :=
  if patternSelectedTools task = [] then [("web_search", fallbackWebParams task)]
  else patternParams task now

/-- `parameters` after the fallback and the `data_analysis` injection. -/
def finalParams (task now : String) : List (String × Params) :=
  if 1 < (withFallbackTools (patternSelectedTools task)).length ∧
      "data_analysis" ∉ withFallbackTools (patternSelectedTools task) then
    withFallbackParams task now ++ [("data_analysis", injectedParams)]
  else withFallbackParams task now

/-- `_determine_execution_strategy`. -/
def determineExecutionStrategy (tools : List String) : String :=
  if 2 < tools.length then "parallel"
  else if tools.length = 2 then "sequential"
  else "single"

/-- The `extracted_context` sub-dictionary of the returned plan. -/
structure ExtractedContext where
  location : String
  has_comparison : Bool
  task_type : String
deriving Repr, DecidableEq

/-- The dictionary returned by `analyze_task`. -/
structure TaskPlan where
  tools : List String
  parameters : List (String × Params)
  task_complexity : String
  execution_strategy : String
  extracted_context : ExtractedContext
deriving Repr, DecidableEq

/-- `DynamicToolDispatcher.analyze_task`; `now` is the capture time used for
the `timestamp` parameters. -/
def analyze_task (task now : String) : TaskPlan :=
  { tools := finalToolsOf (patternSelectedTools task),
    parameters := finalParams task now,
    task_complexity := assessComplexity task.data,
    execution_strategy := determineExecutionStrategy
      (finalToolsOf (patternSelectedTools task)),
    extracted_context :=
      { location := taskLocation task,
        has_comparison := detectTimeComparison (lcl task.data),
        task_type := classifyTaskType (lcl task.data) } }

/-- The `priority_order` of `get_tool_execution_order`. -/
def priorityOrder : List String :=
  ["environmental_data", "web_search", "weather_data", "market_data", "data_analysis"]

/-- `get_tool_execution_order`: priority categories occurring in the input
first, then the remaining input categories, each appended only when not
already present. -/
def get_tool_execution_order (tools : List String) : List String :=
  tools.foldl (fun acc t => if t ∈ acc then acc else acc ++ [t])
    (priorityOrder.filter fun t => decide (t ∈ tools))

/-! ### Helper lemmas -/

lemma toolPatterns_keys : toolPatterns.map Prod.fst = toolCatNames := rfl

lemma patternSelectedTools_sublist (task : String) :
    (patternSelectedTools task).Sublist toolCatNames := by
  rw [patternSelectedTools, matchedCats, ← toolPatterns_keys]
  exact List.Sublist.map Prod.fst (List.filter_sublist toolPatterns)

lemma lookup_keyed {β : Type} (g : String → β) (k : String) (l : List String) :
    ((l.map fun a => (a, g a)).lookup k) = if k ∈ l then some (g k) else none := by
  induction l with
  | nil => simp
  | cons a l ih =>
    by_cases h : k = a
    · subst h; simp [List.lookup]
    · simp [List.lookup, beq_eq_false_iff_ne.mpr h, h, ih]

lemma lookup_append_left {β : Type} (k : String) (l l' : List (String × β))
    (h : k ∈ l.map Prod.fst) : (l ++ l').lookup k = l.lookup k := by
  induction l with
  | nil => simp at h
  | cons p l ih =>
    obtain ⟨a, b⟩ := p
    by_cases hk : k = a
    · subst hk; simp [List.lookup]
    · have hm : k ∈ l.map Prod.fst := by
        rcases List.mem_cons.mp h with h1 | h1
        · exact absurd h1 hk
        · exact h1
      simp [List.lookup, beq_eq_false_iff_ne.mpr hk, ih hm]

lemma lookup_append_right {β : Type} (k : String) (l l' : List (String × β))
    (h : k ∉ l.map Prod.fst) : (l ++ l').lookup k = l'.lookup k := by
  induction l with
  | nil => simp
  | cons p l ih =>
    obtain ⟨a, b⟩ := p
    have hk : k ≠ a := fun he => h (by simp [he])
    have hm : k ∉ l.map Prod.fst := fun hm => h (by simp [hm])
    simp [List.lookup, beq_eq_false_iff_ne.mpr hk, ih hm]

lemma patternParams_keys (task now : String) :
    (patternParams task now).map Prod.fst = patternSelectedTools task := by
  simp [patternParams, patternSelectedTools, List.map_map, Function.comp]

lemma patternParams_eq_keyed (task now : String) :
    patternParams task now = (patternSelectedTools task).map fun a =>
      (a, getToolParameters a task (taskLocation task)
        (detectTimeComparison (lcl task.data)) now) := by
  simp [patternParams, patternSelectedTools, List.map_map, Function.comp]

lemma finalParams_keys (task now : String) :
    (finalParams task now).map Prod.fst = finalToolsOf (patternSelectedTools task) := by
  by_cases hps : patternSelectedTools task = []
  · rw [hps]
    unfold finalParams withFallbackParams withFallbackTools finalToolsOf
      withFallbackTools
    rw [hps]
    simp
  · unfold finalParams withFallbackParams finalToolsOf
    rw [if_neg hps]
    by_cases hinj : 1 < (withFallbackTools (patternSelectedTools task)).length ∧
        "data_analysis" ∉ withFallbackTools (patternSelectedTools task)
    · rw [if_pos hinj, if_pos hinj, List.map_append, patternParams_keys]
      unfold withFallbackTools
      rw [if_neg hps]
      rfl
    · rw [if_neg hinj, if_neg hinj, patternParams_keys]
      unfold withFallbackTools
      rw [if_neg hps]

lemma strategy_of_gt (tools : List String) (h : 2 < tools.length) :
    determineExecutionStrategy tools = "parallel" := by
  rw [determineExecutionStrategy, if_pos h]

lemma strategy_of_two (tools : List String) (h : tools.length = 2) :
    determineExecutionStrategy tools = "sequential" := by
  rw [determineExecutionStrategy, if_neg (by omega), if_pos h]

lemma lookup_final_of_mem (task now t : String) (ht : t ∈ patternSelectedTools task) :
    (finalParams task now).lookup t =
      some (getToolParameters t task (taskLocation task)
        (detectTimeComparison (lcl task.data)) now) := by
  have hps : patternSelectedTools task ≠ [] := by
    intro h; rw [h] at ht; exact (List.not_mem_nil t) ht
  have hl : (patternParams task now).lookup t =
      some (getToolParameters t task (taskLocation task)
        (detectTimeComparison (lcl task.data)) now) := by
    rw [patternParams_eq_keyed, lookup_keyed, if_pos ht]
  unfold finalParams withFallbackParams
  rw [if_neg hps]
  by_cases hinj : 1 < (withFallbackTools (patternSelectedTools task)).length ∧
      "data_analysis" ∉ withFallbackTools (patternSelectedTools task)
  · rw [if_pos hinj,
      lookup_append_left t _ _ (by rw [patternParams_keys]; exact ht), hl]
  · rw [if_neg hinj, hl]

lemma injected_lookup (task now : String)
    (h1 : 1 < (patternSelectedTools task).length)
    (h3 : "data_analysis" ∉ patternSelectedTools task) :
    (finalParams task now).lookup "data_analysis" = some injectedParams := by
  have hps : patternSelectedTools task ≠ [] := by
    intro h; rw [h] at h1; simp at h1
  have hw : withFallbackTools (patternSelectedTools task) = patternSelectedTools task := by
    unfold withFallbackTools; rw [if_neg hps]
  unfold finalParams
  rw [hw, if_pos ⟨h1, h3⟩, lookup_append_right]
  · rfl
  · unfold withFallbackParams
    rw [if_neg hps, patternParams_keys]
    exact h3

lemma getToolParameters_base (toolType task location : String) (hc : Bool)
    (now : String) :
    (getToolParameters toolType task location hc now).lookup "task_context" =
        some (PVal.s task) ∧
    (getToolParameters toolType task location hc now).lookup "location" =
        some (PVal.s location) ∧
    (getToolParameters toolType task location hc now).lookup "timestamp" =
        some (PVal.s now) := by
  refine ⟨?_, ?_, ?_⟩ <;> (unfold getToolParameters; split_ifs <;> rfl)

lemma web_search_params_lookup (task location : String) (hc : Bool) (now : String) :
    (getToolParameters "web_search" task location hc now).lookup "date_filter" =
      some (PVal.s (if hc then "recent" else "all")) := rfl

lemma data_analysis_params_lookup (task location : String) (hc : Bool) (now : String) :
    (getToolParameters "data_analysis" task location hc now).lookup "analysis_type" =
      some (PVal.s (if hc then "comparative" else "descriptive")) := rfl

lemma finalToolsOf_sub_ne_nil : ∀ ps ∈ toolCatNames.sublists,
    finalToolsOf ps ≠ [] := by decide

lemma finalToolsOf_sub_getLast : ∀ ps ∈ toolCatNames.sublists,
    1 < (finalToolsOf ps).length →
      (finalToolsOf ps).getLast? = some "data_analysis" := by decide

lemma finalToolsOf_sub_mem_da : ∀ ps ∈ toolCatNames.sublists,
    2 ≤ ps.length → "data_analysis" ∈ finalToolsOf ps := by decide

/-! ### Claims -/

/-- C1: for every input string, the plan returned by `analyze_task` has a
non-empty tools list; if the tools list has more than one element and
`data_analysis` was not selected by pattern match, `data_analysis` is appended
at the end; and the parameters mapping has exactly one entry per element of the
tools list (its key list equals the tools list). -/
theorem dispatcher_plan_invariants (task now : String) :
    (analyze_task task now).tools ≠ [] ∧
    (1 < (analyze_task task now).tools.length →
      "data_analysis" ∉ patternSelectedTools task →
      (analyze_task task now).tools.getLast? = some "data_analysis") ∧
    (analyze_task task now).parameters.map Prod.fst = (analyze_task task now).tools := by
  have hs := List.mem_sublists.mpr (patternSelectedTools_sublist task)
  exact ⟨finalToolsOf_sub_ne_nil _ hs,
    fun h _ => finalToolsOf_sub_getLast _ hs h,
    finalParams_keys task now⟩

/-- Witness for C1 on a task matching two categories without `data_analysis`. -/
theorem dispatcher_plan_invariants_witness :
    (analyze_task "pollution and weather" "2024-01-01T00:00:00").tools ≠ [] ∧
    (analyze_task "pollution and weather" "2024-01-01T00:00:00").tools.getLast? =
      some "data_analysis" ∧
    (analyze_task "pollution and weather" "2024-01-01T00:00:00").parameters.map Prod.fst =
      (analyze_task "pollution and weather" "2024-01-01T00:00:00").tools :=
  ⟨(dispatcher_plan_invariants "pollution and weather" "2024-01-01T00:00:00").1,
   (dispatcher_plan_invariants "pollution and weather" "2024-01-01T00:00:00").2.1
     (by decide) (by decide),
   (dispatcher_plan_invariants "pollution and weather" "2024-01-01T00:00:00").2.2⟩

/-- C2: for every task string in which no pattern of any tool category matches
the lower-cased text, `analyze_task` returns tools `["web_search"]` and
execution strategy `"single"` (the function is total, so no input raises). -/
theorem no_match_fallback (task now : String)
    (h : toolPatterns.all
      (fun p => !(p.2.any fun pat => substrMatch pat (lcl task.data))) = true) :
    (analyze_task task now).tools = ["web_search"] ∧
    (analyze_task task now).execution_strategy = "single" := by
  have hm : matchedCats task = [] := by
    rw [matchedCats, List.filter_eq_nil_iff]
    intro p hp
    have hx := (List.all_eq_true.mp h) p hp
    simp only [Bool.not_eq_true'] at hx
    simp [hx]
  have hps : patternSelectedTools task = [] := by
    rw [patternSelectedTools, hm]; rfl
  constructor
  · show finalToolsOf (patternSelectedTools task) = ["web_search"]
    rw [hps]; rfl
  · show determineExecutionStrategy (finalToolsOf (patternSelectedTools task)) = "single"
    rw [hps]; rfl

/-- Witness for C2 at the empty string. -/
theorem no_match_fallback_witness :
    (analyze_task "" "t").tools = ["web_search"] ∧
    (analyze_task "" "t").execution_strategy = "single" :=
  no_match_fallback "" "t" (by decide)

/-- C3: for every task string matching at least two distinct tool categories,
the returned tools contain `data_analysis`; the execution strategy is
`"parallel"` when the final tools count exceeds 2 and `"sequential"` when it is
exactly 2; an injected `data_analysis` entry carries
`analysis_type = "comparative"` regardless of the time-comparison flag, while a
pattern-matched `data_analysis` entry derives `analysis_type` from that flag. -/
theorem multi_category_analysis (task now : String)
    (h : 2 ≤ (patternSelectedTools task).length) :
    "data_analysis" ∈ (analyze_task task now).tools ∧
    (2 < (analyze_task task now).tools.length →
      (analyze_task task now).execution_strategy = "parallel") ∧
    ((analyze_task task now).tools.length = 2 →
      (analyze_task task now).execution_strategy = "sequential") ∧
    ("data_analysis" ∉ patternSelectedTools task →
      (analyze_task task now).parameters.lookup "data_analysis" = some injectedParams) ∧
    ("data_analysis" ∈ patternSelectedTools task →
      ((analyze_task task now).parameters.lookup "data_analysis").bind
          (fun ps => ps.lookup "analysis_type") =
        some (PVal.s (if detectTimeComparison (lcl task.data) then
          "comparative" else "descriptive"))) := by
  refine ⟨?_, ?_, ?_, ?_, ?_⟩
  · exact finalToolsOf_sub_mem_da _
      (List.mem_sublists.mpr (patternSelectedTools_sublist task)) h
  · exact fun hgt => strategy_of_gt _ hgt
  · exact fun h2 => strategy_of_two _ h2
  · intro hd
    exact injected_lookup task now (by omega) hd
  · intro hd
    show ((finalParams task now).lookup "data_analysis").bind _ = _
    rw [lookup_final_of_mem task now "data_analysis" hd]
    show (getToolParameters "data_analysis" task (taskLocation task)
      (detectTimeComparison (lcl task.data)) now).lookup "analysis_type" = _
    exact data_analysis_params_lookup task (taskLocation task)
      (detectTimeComparison (lcl task.data)) now

/-- Witness for C3 on a task matching `environmental_data` and `weather_data`. -/
theorem multi_category_analysis_witness :
    "data_analysis" ∈ (analyze_task "water quality and storm" "t").tools ∧
    (analyze_task "water quality and storm" "t").execution_strategy = "parallel" ∧
    (analyze_task "water quality and storm" "t").parameters.lookup "data_analysis" =
      some injectedParams :=
  ⟨(multi_category_analysis "water quality and storm" "t" (by decide)).1,
   (multi_category_analysis "water quality and storm" "t" (by decide)).2.1 (by decide),
   (multi_category_analysis "water quality and storm" "t" (by decide)).2.2.2.1 (by decide)⟩

/-- C4 counterexample: at the no-match input `""`, the fallback `web_search`
entry holds only `query` and `date_filter` — it has no `task_context`,
`location` or `timestamp` field, contradicting the claim that the common
fields are always present. -/
theorem common_fields_cex :
    (analyze_task "" "t").parameters =
      [("web_search", [("query", PVal.s ""), ("date_filter", PVal.s "all")])] ∧
    ((analyze_task "" "t").parameters.lookup "web_search").bind
      (fun ps => ps.lookup "task_context") = none := by decide

/-- C4 amended: every pattern-matched tool's parameters carry `task_context`
(the full task text), `location` (the extracted location) and `timestamp` (the
capture time); the no-match `web_search` fallback entry carries only `query`
and `date_filter`, and the injected `data_analysis` entry carries only
`analysis_type`. -/
theorem common_fields_amended (task now : String) :
    (∀ t ∈ patternSelectedTools task, ∃ ps,
      (analyze_task task now).parameters.lookup t = some ps ∧
      ps.lookup "task_context" = some (PVal.s task) ∧
      ps.lookup "location" = some (PVal.s (taskLocation task)) ∧
      ps.lookup "timestamp" = some (PVal.s now)) ∧
    (patternSelectedTools task = [] →
      (analyze_task task now).parameters = [("web_search", fallbackWebParams task)]) ∧
    (1 < (patternSelectedTools task).length →
      "data_analysis" ∉ patternSelectedTools task →
      (analyze_task task now).parameters.lookup "data_analysis" = some injectedParams) := by
  refine ⟨?_, ?_, ?_⟩
  · intro t ht
    refine ⟨getToolParameters t task (taskLocation task)
      (detectTimeComparison (lcl task.data)) now,
      lookup_final_of_mem task now t ht, ?_, ?_, ?_⟩
    · exact (getToolParameters_base t task (taskLocation task)
        (detectTimeComparison (lcl task.data)) now).1
    · exact (getToolParameters_base t task (taskLocation task)
        (detectTimeComparison (lcl task.data)) now).2.1
    · exact (getToolParameters_base t task (taskLocation task)
        (detectTimeComparison (lcl task.data)) now).2.2
  · intro hps
    show finalParams task now = _
    unfold finalParams withFallbackParams
    rw [hps]
    simp [withFallbackTools]
  · intro h1 hd
    exact injected_lookup task now h1 hd

/-- Witness for C4 amended: a pattern-matched `environmental_data` entry with
the three common fields, and the bare fallback entry at a no-match input. -/
theorem common_fields_amended_witness :
    (∃ ps, (analyze_task "pollution levels in Paris" "t").parameters.lookup
        "environmental_data" = some ps ∧
      ps.lookup "task_context" = some (PVal.s "pollution levels in Paris") ∧
      ps.lookup "location" = some (PVal.s (taskLocation "pollution levels in Paris")) ∧
      ps.lookup "timestamp" = some (PVal.s "t")) ∧
    (analyze_task "zzz" "t").parameters = [("web_search", fallbackWebParams "zzz")] :=
  ⟨(common_fields_amended "pollution levels in Paris" "t").1 "environmental_data"
     (by decide),
   (common_fields_amended "zzz" "t").2.1 (by decide)⟩

/-- C9: for every input string, if the tools list returned by `analyze_task`
has more than one element, its last element is `data_analysis` (matched by
pattern it comes last in the category definition order; injected it is appended
at the end). -/
theorem tools_last_data_analysis (task now : String)
    (h : 1 < (analyze_task task now).tools.length) :
    (analyze_task task now).tools.getLast? = some "data_analysis" :=
  finalToolsOf_sub_getLast _ (List.mem_sublists.mpr (patternSelectedTools_sublist task)) h

/-- Witness for C9 on a task matching `web_search` and `market_data`. -/
theorem tools_last_data_analysis_witness :
    (analyze_task "market report" "t").tools.getLast? = some "data_analysis" :=
  tools_last_data_analysis "market report" "t" (by decide)

/-- C5 counterexample: the claim predicts location `"global"` for
`"Show me the data"` (noise-filtered capture) and for `"data from study"`
(whose only capture, `study`, the claim lists as a noise word); the code
returns a non-`"global"` location for both. -/
theorem location_noise_cex :
    (analyze_task "Show me the data" "t").extracted_context.location ≠ "global" ∧
    (analyze_task "data from study" "t").extracted_context.location ≠ "global" := by
  decide

/-- C5 amended: location extraction tries the ordered capture patterns and
returns the first stripped capture that is not one of the noise words `data`,
`information`, `analysis`, `report` (`study` is not filtered), defaulting to
`"global"`; `"Analyze pollution in Delhi"` yields `"Delhi"`, while
`"Show me the data"` yields `"Show me the"` — the capture of
`([A-Za-z\s]+) data` is the greedy prefix, not the word `data` — and
`"data from study"` yields `"study"`. A noise capture falls through to the
later patterns, as in `"in data, check"`. -/
theorem location_extraction_amended :
    (analyze_task "Analyze pollution in Delhi" "t").extracted_context.location =
      "Delhi" ∧
    (analyze_task "Show me the data" "t").extracted_context.location =
      "Show me the" ∧
    (analyze_task "data from study" "t").extracted_context.location = "study" ∧
    (analyze_task "in data, check" "t").extracted_context.location = "in" ∧
    (analyze_task "zzzz qqq" "t").extracted_context.location = "global" := by
  decide

/-- C6 counterexample: the claim counts the spaced `"pm 2.5"` variant as a
match for the `pm2.5` token, so it predicts exactly `["pm2.5"]` for
`"pm 2.5 levels"`; the code's pattern `pm2\.5|particulate matter 2\.5` does not
match, and the extraction falls back to the three-element default. -/
theorem metrics_spaced_cex :
    extractPollutionMetrics (lcl "pm 2.5 levels".data) ≠ ["pm2.5"] ∧
    extractPollutionMetrics (lcl "pm 2.5 levels".data) = ["pm2.5", "pm10", "no2"] := by
  decide

/-- C6 amended: pollutant-metric extraction returns, in fixed vocabulary order,
the tokens whose patterns match; the `pm2.5` pattern matches `pm2.5` or
`particulate matter 2.5` but not the spaced `pm 2.5`, which falls to the
default `[pm2.5, pm10, no2]`; `co` matches only as a whole word; for
`"Check PM2.5 and NO2 levels"` the `environmental_data` metrics parameter is
exactly `["pm2.5", "no2"]`. -/
theorem metrics_extraction_amended :
    ((analyze_task "Check PM2.5 and NO2 levels" "t").parameters.lookup
        "environmental_data").bind (fun ps => ps.lookup "metrics") =
      some (PVal.ls ["pm2.5", "no2"]) ∧
    extractPollutionMetrics (lcl "particulate matter 2.5".data) = ["pm2.5"] ∧
    extractPollutionMetrics (lcl "pm 2.5".data) = ["pm2.5", "pm10", "no2"] ∧
    metricMatch (lcl "Measure CO now".data) "co" = true ∧
    metricMatch (lcl "economy control".data) "co" = false ∧
    extractPollutionMetrics (lcl "aqi and so2 and ozone, pm10".data) =
      ["pm10", "so2", "o3", "aqi"] := by
  decide

/-- C7: task complexity is `"high"` exactly when the whitespace word count
exceeds 15 or the lower-cased text contains a complexity indicator; otherwise
`"medium"` exactly when the word count exceeds 8; otherwise `"low"`. -/
theorem complexity_tiers (task now : String) :
    ((analyze_task task now).task_complexity = "high" ↔
      (15 < wordCount task.data ∨
        (complexityIndicators.any fun w => substrMatch w (lcl task.data)) = true)) ∧
    ((analyze_task task now).task_complexity = "medium" ↔
      (¬(15 < wordCount task.data ∨
        (complexityIndicators.any fun w => substrMatch w (lcl task.data)) = true) ∧
        8 < wordCount task.data)) ∧
    ((analyze_task task now).task_complexity = "low" ↔
      (¬(15 < wordCount task.data ∨
        (complexityIndicators.any fun w => substrMatch w (lcl task.data)) = true) ∧
        ¬8 < wordCount task.data)) := by
  show (assessComplexity task.data = "high" ↔ _) ∧
    (assessComplexity task.data = "medium" ↔ _) ∧
    (assessComplexity task.data = "low" ↔ _)
  unfold assessComplexity
  split_ifs with h1 h2
  · exact ⟨iff_of_true rfl h1, iff_of_false (by decide) fun hc => hc.1 h1,
      iff_of_false (by decide) fun hc => hc.1 h1⟩
  · exact ⟨iff_of_false (by decide) h1, iff_of_true rfl ⟨h1, h2⟩,
      iff_of_false (by decide) fun hc => hc.2 h2⟩
  · exact ⟨iff_of_false (by decide) h1, iff_of_false (by decide) fun hc => h2 hc.2,
      iff_of_true rfl ⟨h1, h2⟩⟩

/-- Witness for C7: one task in each tier. -/
theorem complexity_tiers_witness :
    (analyze_task "Compare urban and rural air" "t").task_complexity = "high" ∧
    (analyze_task "one two three four five six seven eight nine" "t").task_complexity =
      "medium" ∧
    (analyze_task "short task" "t").task_complexity = "low" :=
  ⟨((complexity_tiers "Compare urban and rural air" "t").1).mpr (Or.inr (by decide)),
   ((complexity_tiers "one two three four five six seven eight nine" "t").2.1).mpr
     (by decide),
   ((complexity_tiers "short task" "t").2.2).mpr (by decide)⟩

lemma foldl_dedup_append (p : String → Prop) [DecidablePred p] (l : List String) :
    ∀ acc : List String, l.Nodup → (∀ t ∈ l, (t ∈ acc ↔ p t)) →
      l.foldl (fun a t => if t ∈ a then a else a ++ [t]) acc =
        acc ++ l.filter fun t => decide ¬p t := by
  induction l with
  | nil => intro acc _ _; simp
  | cons t l ih =>
    intro acc hnd hacc
    obtain ⟨htl, hndl⟩ := List.nodup_cons.mp hnd
    by_cases hp : p t
    · have hmem : t ∈ acc := (hacc t (List.mem_cons_self t l)).mpr hp
      rw [List.foldl_cons, if_pos hmem, ih acc hndl
          (fun u hu => hacc u (List.mem_cons_of_mem t hu)), List.filter_cons]
      simp [hp]
    · have hmem : t ∉ acc := fun hm => hp ((hacc t (List.mem_cons_self t l)).mp hm)
      have hacc' : ∀ u ∈ l, (u ∈ acc ++ [t] ↔ p u) := by
        intro u hu
        rw [List.mem_append, List.mem_singleton]
        constructor
        · rintro (hmm | hmm)
          · exact (hacc u (List.mem_cons_of_mem t hu)).mp hmm
          · exact absurd (hmm ▸ hu) htl
        · exact fun hmm => Or.inl ((hacc u (List.mem_cons_of_mem t hu)).mpr hmm)
      rw [List.foldl_cons, if_neg hmem, ih (acc ++ [t]) hndl hacc', List.filter_cons]
      simp [hp, List.append_assoc]

/-- C8: for every duplicate-free input list of category names,
`get_tool_execution_order` returns the priority-list categories occurring in
the input, in priority order, followed by the input's unlisted categories in
their original relative order. -/
theorem execution_order_priority (tools : List String) (h : tools.Nodup) :
    get_tool_execution_order tools =
      (priorityOrder.filter fun t => decide (t ∈ tools)) ++
        tools.filter fun t => decide (t ∉ priorityOrder) := by
  have hinv : ∀ t ∈ tools,
      (t ∈ priorityOrder.filter (fun t => decide (t ∈ tools)) ↔ t ∈ priorityOrder) := by
    intro t ht
    simp [List.mem_filter, ht]
  exact foldl_dedup_append (fun t => t ∈ priorityOrder) tools _ h hinv

/-- Witness for C8 at the reordering example of the claim. -/
theorem execution_order_priority_witness :
    get_tool_execution_order ["data_analysis", "web_search", "environmental_data"] =
      ["environmental_data", "web_search", "data_analysis"] :=
  (execution_order_priority ["data_analysis", "web_search", "environmental_data"]
    (by decide)).trans (by decide)

/-- C10: time-comparison detection is an unanchored substring search, so any
text whose lower-cased form contains `vs` (as in `devs`) or `2024` (as in
`20245`) yields `has_comparison = true`, which selects `date_filter "recent"`
for a pattern-matched `web_search` and `analysis_type "comparative"` for a
pattern-matched `data_analysis`. -/
theorem time_substring_detection (task now : String)
    (h : substrMatch "vs".data (lcl task.data) = true ∨
      substrMatch "2024".data (lcl task.data) = true) :
    (analyze_task task now).extracted_context.has_comparison = true ∧
    ("web_search" ∈ patternSelectedTools task →
      ((analyze_task task now).parameters.lookup "web_search").bind
        (fun ps => ps.lookup "date_filter") = some (PVal.s "recent")) ∧
    ("data_analysis" ∈ patternSelectedTools task →
      ((analyze_task task now).parameters.lookup "data_analysis").bind
        (fun ps => ps.lookup "analysis_type") = some (PVal.s "comparative")) := by
  have hdt : detectTimeComparison (lcl task.data) = true := by
    rw [detectTimeComparison, List.any_eq_true]
    rcases h with h | h
    · exact ⟨"vs".data, by decide, h⟩
    · exact ⟨"2024".data, by decide, h⟩
  refine ⟨hdt, ?_, ?_⟩
  · intro hw
    show ((finalParams task now).lookup "web_search").bind _ = _
    rw [lookup_final_of_mem task now "web_search" hw]
    show (getToolParameters "web_search" task (taskLocation task)
        (detectTimeComparison (lcl task.data)) now).lookup "date_filter" = _
    rw [web_search_params_lookup, hdt]
    rfl
  · intro hd
    show ((finalParams task now).lookup "data_analysis").bind _ = _
    rw [lookup_final_of_mem task now "data_analysis" hd]
    show (getToolParameters "data_analysis" task (taskLocation task)
        (detectTimeComparison (lcl task.data)) now).lookup "analysis_type" = _
    rw [data_analysis_params_lookup, hdt]
    rfl

/-- Witness for C10 at the claim's two example shapes (`devs`, `20245`). -/
theorem time_substring_detection_witness :
    (analyze_task "devs news analysis" "t").extracted_context.has_comparison = true ∧
    ((analyze_task "devs news analysis" "t").parameters.lookup "web_search").bind
      (fun ps => ps.lookup "date_filter") = some (PVal.s "recent") ∧
    ((analyze_task "devs news analysis" "t").parameters.lookup "data_analysis").bind
      (fun ps => ps.lookup "analysis_type") = some (PVal.s "comparative") ∧
    (analyze_task "20245 report" "t").extracted_context.has_comparison = true :=
  ⟨(time_substring_detection "devs news analysis" "t" (Or.inl (by decide))).1,
   (time_substring_detection "devs news analysis" "t" (Or.inl (by decide))).2.1
     (by decide),
   (time_substring_detection "devs news analysis" "t" (Or.inl (by decide))).2.2
     (by decide),
   (time_substring_detection "20245 report" "t" (Or.inr (by decide))).1⟩

end AutoGenFlows
